import Mathlib

/-!
# Verification of the bricks-use table-comparison engine

A shallow embedding in Lean 4 of `src/tools/table_compare_tool.py`
(class `TableCompareTool`): the progressive-sampling comparison engine,
its output bounder, sample-file management, and the metadata-only quick
comparison.  Python strings are modelled as `String` / `List Char`
(`str.split('\n')` and `'\n'.join` are re-implemented faithfully on
`List Char`), the filesystem as the list of temporary sample paths present
on disk, and the external processes (`head`, `diff`) as oracle functions
supplied by an environment record.  Python integers are unbounded, so they
are modelled as `Int` / `Nat` with no overflow wrapping.
-/

namespace TableCompare

/-! ## Constants (source lines 16-26) -/

def DEFAULT_DIFF_LINES : Nat := 10

def MAX_DIFF_OUTPUT_LINES : Nat := 10

def DIFF_TIMEOUT_SECONDS : Nat := 300

def DIFF_SUCCESS_CODE : Nat := 0

def DIFF_DIFFERENT_CODE : Nat := 1

def UNIFIED_DIFF_FORMAT : String := "-u"

def INCREMENTAL_SAMPLE_SIZES : List Nat := [5, 25, 100, 500]

/-! ## Python line splitting and joining

`_limit_diff_output` (source lines 413-438) works on the result of
`diff_output.split('\n')` and rebuilds the text with `'\n'.join(...)`.
We model Python text as a list of characters and re-implement both
primitives with Python's semantics. -/

/-- Python `s.split('\n')` on a text given as a list of characters:
splits at every newline character; the empty text yields one empty line. -/
def splitLines : List Char → List (List Char)
  | [] => [[]]
  | c :: rest =>
    if c = '\n' then [] :: splitLines rest
    else
      match splitLines rest with
      | [] => [[c]]
      | l :: ls => (c :: l) :: ls

/-- Python `'\n'.join(lines)` on texts given as lists of characters. -/
def joinLines : List (List Char) → List Char
  | [] => []
  | [l] => l
  | l :: ls => l ++ '\n' :: joinLines ls

/-- The truncation message appended by `_limit_diff_output`
(source lines 432-435).  The Python f-string begins with an escaped
newline character. -/
def truncationMsg (totalLines : Nat) : List Char :=
  ("\n... (truncated " ++ toString (totalLines - MAX_DIFF_OUTPUT_LINES) ++
    " more lines, showing first " ++ toString MAX_DIFF_OUTPUT_LINES ++
    " lines)").data

/-- The truncation message after its leading newline character. -/
def truncationBody (totalLines : Nat) : List Char :=
  ("... (truncated " ++ toString (totalLines - MAX_DIFF_OUTPUT_LINES) ++
    " more lines, showing first " ++ toString MAX_DIFF_OUTPUT_LINES ++
    " lines)").data

/-- `_limit_diff_output` (source lines 413-438) on a text given as a list
of characters.  The Python code binds `lines = diff_output.split('\n')`
once; here the pure expression is repeated, which is equivalent. -/
def limitChars (s : List Char) : List Char :=
  if (splitLines s).length ≤ MAX_DIFF_OUTPUT_LINES then s
  else joinLines ((splitLines s).take MAX_DIFF_OUTPUT_LINES ++
    [truncationMsg (splitLines s).length])

/-- `_limit_diff_output` as a `String → String` function. -/
def limitDiffOutput (s : String) : String :=
  ⟨limitChars s.data⟩

/-! ## Paths, filesystem state and the process oracle -/

/-- A file path, split as `os.path.dirname` / `os.path.basename`
(source lines 320-321 take the path apart exactly this way). -/
structure CsvPath where
  dir : String
  base : String
deriving DecidableEq

/-- `os.path.join(dir, base)`. -/
def pathStr (p : CsvPath) : String :=
  p.dir ++ "/" ++ p.base

/-- The temporary sample-file path built by `_create_sample_file`
(source lines 319-324): same directory as the original, name
`f"sample_{sample_size}{suffix}_{base_name}"`. -/
def sampleFilePath (orig : CsvPath) (size : Nat) ( suffix : String) : CsvPath :=
  ⟨orig.dir, "sample_" ++ toString size ++ suffix ++ "_" ++ orig.base⟩

/-- The sample-file path produced on behalf of one comparison request.
`_create_sample_file` receives only the original path, the sample size and
the fixed positional suffix (source lines 261-267 pass `"_1"` / `"_2"`);
no request-specific datum enters the name, so the request identifier is
ignored. -/
def requestSamplePath (requestId : Nat) (orig : CsvPath) (size : Nat)
    ( suffix : String) : CsvPath :=
  sampleFilePath orig size suffix

/-- Outcome of one `subprocess.run` invocation of `diff`:
whether `subprocess.TimeoutExpired` was raised, and otherwise the exit
status and captured streams. -/
structure ProcResult where
  timedOut : Bool
  returncode : Nat
  stdout : String
  stderr : String

/-- Environment of external effects for the full comparison operation:
the Databricks collaborator (`get_table_data`, `os.path.getsize`), the
line contents of each dataset file on disk, the behaviour of the
`head -n size` subprocess used by `_create_sample_file`, and the `diff`
subprocess as an oracle of the command and the lines of the two sample
files it is run on. -/
structure Env where
  getTableData : String → Option String → Option String → Except String CsvPath
  getSize : CsvPath → Nat
  contents : CsvPath → List String
  headFails : CsvPath → Nat → Bool
  headErr : CsvPath → Nat → String
  runDiff : List String → List String → List String → ProcResult

/-- The set of temporary sample files currently on disk. -/
abbrev FS := List CsvPath

/-- Python exceptions distinguished by `_run_diff_command`
(source lines 236-243): `subprocess.TimeoutExpired`,
`subprocess.CalledProcessError`, and any other `Exception`. -/
inductive PyErr where
  | timeoutExpired
  | calledProcessError (returncode : Nat) (msg : String)
  | exception (msg : String)
deriving DecidableEq

/-- `_create_sample_file` (source lines 306-337): runs `head -n size`
on the original file and writes the captured lines to the temporary
sample path, raising when `head` exits non-zero.  Returns the new path
and the filesystem with the sample file present. -/
def createSampleFile (env : Env) (fs : FS) (orig : CsvPath) (size : Nat)
    ( suffix : String) : Except PyErr (CsvPath × FS) :=
  if env.headFails orig size then
    .error (.exception ("Failed to create sample file: " ++ env.headErr orig size))
  else
    .ok (sampleFilePath orig size suffix, sampleFilePath orig size suffix :: fs)

/-- `_cleanup_sample_files` (source lines 339-350): removes each listed
path from disk; an `OSError` during removal is only logged. -/
def cleanupSampleFiles (fs : FS) (paths : List CsvPath) : FS :=
  paths.foldl (fun acc p => acc.filter (fun q => q ≠ p)) fs

/-- `_build_diff_command` (source lines 352-365). -/
def buildDiffCommand (file1 file2 : CsvPath) (contextLines : Int) : List String :=
  ["diff", UNIFIED_DIFF_FORMAT ++ toString contextLines, pathStr file1, pathStr file2]

/-- The dictionary produced by `_process_diff_result` and
`_smart_diff_with_sampling`; `sample_size` is absent (`none`) until the
sampling loop adds it. -/
structure DiffResult where
  command : String
  output : String
  identical : Bool
  return_code : Nat
  sample_size : Option Nat
deriving DecidableEq

/-- `_process_diff_result` (source lines 380-411): exit status 0 means
identical, 1 means different (with bounded output), anything else raises
`subprocess.CalledProcessError` carrying `stderr or "Unknown diff error"`. -/
def processDiffResult (cmd : List String) (res : ProcResult) :
    Except PyErr DiffResult :=
  if res.returncode = DIFF_SUCCESS_CODE then
    .ok ⟨String.intercalate " " cmd, "Files are identical", true, res.returncode, none⟩
  else if res.returncode = DIFF_DIFFERENT_CODE then
    .ok ⟨String.intercalate " " cmd, limitDiffOutput res.stdout, false,
      res.returncode, none⟩
  else
    .error (.calledProcessError res.returncode
      (if res.stderr = "" then "Unknown diff error" else res.stderr))

/-- The loop body of `_smart_diff_with_sampling` (source lines 258-304),
recursing over the remaining ladder of sample sizes.  Besides the Python
return value (or pending exception) it carries the filesystem of
temporary sample files and the list of sample sizes attempted so far
(the sizes logged by `logger.debug("Trying diff with sample size: ...")`
at source line 259).  Both sample files are created before the `try`
block; the `finally` cleanup (line 293) therefore runs only when both
creations succeeded, and it runs on every exit from the `try` block. -/
def smartDiffGo (env : Env) (file1 file2 : CsvPath) (contextLines : Int) :
    List Nat → FS → List Nat → Except PyErr DiffResult × FS × List Nat
  | [], fs, log =>
    (.ok ⟨"diff (smart sampling up to " ++
        toString (INCREMENTAL_SAMPLE_SIZES.getLastD 0) ++ " lines)",
      "Files are identical (verified through progressive sampling)",
      true, DIFF_SUCCESS_CODE, some (INCREMENTAL_SAMPLE_SIZES.getLastD 0)⟩,
      fs, log)
  | size :: rest, fs, log =>
    match createSampleFile env fs file1 size "_1" with
    | .error e => (.error e, fs, log ++ [size])
    | .ok (sample1, fs1) =>
      match createSampleFile env fs1 file2 size "_2" with
      | .error e => (.error e, fs1, log ++ [size])
      | .ok (sample2, fs2) =>
        let res := env.runDiff (buildDiffCommand sample1 sample2 contextLines)
          ((env.contents file1).take size) ((env.contents file2).take size)
        let fsc := cleanupSampleFiles fs2 [sample1, sample2]
        if res.timedOut then (.error .timeoutExpired, fsc, log ++ [size])
        else if res.returncode = DIFF_DIFFERENT_CODE then
          match processDiffResult (buildDiffCommand sample1 sample2 contextLines) res with
          | .ok r =>
            (.ok { r with
              command := "diff (sample " ++ toString size ++ " lines) " ++
                pathStr file1 ++ " " ++ pathStr file2,
              sample_size := some size }, fsc, log ++ [size])
          | .error e => (.error e, fsc, log ++ [size])
        else if res.returncode ≠ DIFF_SUCCESS_CODE then
          match processDiffResult (buildDiffCommand sample1 sample2 contextLines) res with
          | .ok r => (.ok r, fsc, log ++ [size])
          | .error e => (.error e, fsc, log ++ [size])
        else
          smartDiffGo env file1 file2 contextLines rest fsc (log ++ [size])

/-- `_smart_diff_with_sampling` (source lines 245-304). -/
def smartDiffWithSampling (env : Env) (file1 file2 : CsvPath)
    (contextLines : Int) (fs : FS) :
    Except PyErr DiffResult × FS × List Nat :=
  smartDiffGo env file1 file2 contextLines INCREMENTAL_SAMPLE_SIZES fs []

/-- The message of the `Exception` re-raised by `_run_diff_command`
(source lines 236-243) for each caught exception class.  The embedded
text of `str(e)` for `CalledProcessError` is abbreviated to the exit
status; no claim depends on its exact wording. -/
def pyErrMessage : PyErr → String
  | .timeoutExpired =>
    "Diff command timed out after " ++ toString (DIFF_TIMEOUT_SECONDS / 60) ++
      " minutes"
  | .calledProcessError code _ =>
    "Diff command failed: Command returned non-zero exit status " ++
      toString code ++ "."
  | .exception msg => "Error running diff: " ++ msg

/-- `_run_diff_command` (source lines 210-243): caps the context lines at
`MAX_DIFF_OUTPUT_LINES` (line 231, an upper cap only — `min`), runs the
progressive sampling, and converts any pending exception to a plain
`Exception` message. -/
def runDiffCommand (env : Env) (file1 file2 : CsvPath) (contextLines : Int)
    (fs : FS) : Except String DiffResult × FS × List Nat :=
  match smartDiffWithSampling env file1 file2
      (min contextLines (MAX_DIFF_OUTPUT_LINES : Int)) fs with
  | (.ok r, fs2, log) => (.ok r, fs2, log)
  | (.error e, fs2, log) => (.error (pyErrMessage e), fs2, log)

/-- The success dictionary built by `_create_comparison_result`
(source lines 142-175).  Note it does not carry the sampler's
`sample_size` field; the sample size only survives inside
`diff_command`. -/
structure CompareReport where
  table1 : String
  table2 : String
  csv_path1 : CsvPath
  csv_path2 : CsvPath
  file_size1 : Nat
  file_size2 : Nat
  diff_output : String
  files_identical : Bool
  diff_command : String
deriving DecidableEq

/-- Return value of `compare_tables`: either the success dictionary or
the `{"success": False, "error": msg}` dictionary produced by the error
handlers (source lines 177-208). -/
inductive CompareOutcome where
  | ok (report : CompareReport)
  | err (message : String)
deriving DecidableEq

/-- The `success` field of the returned dictionary. -/
def CompareOutcome.success : CompareOutcome → Bool
  | .ok _ => true
  | .err _ => false

/-- `compare_tables` (source lines 40-91): retrieve both CSVs from the
collaborator, run the smart diff, attach file sizes; any
`DatabricksServiceError` or other exception becomes an error result.
Also returns the final temp-file filesystem and the attempted sample
sizes. -/
def compareTables (env : Env) (table1 table2 : String)
    (catalog1 schema1 catalog2 schema2 : Option String)
    (diffLines : Int) (fs : FS) : CompareOutcome × FS × List Nat :=
  match env.getTableData table1 catalog1 schema1 with
  | .error e => (.err e, fs, [])
  | .ok csvPath1 =>
    match env.getTableData table2 catalog2 schema2 with
    | .error e => (.err e, fs, [])
    | .ok csvPath2 =>
      match runDiffCommand env csvPath1 csvPath2 diffLines fs with
      | (.ok r, fs2, log) =>
        (.ok ⟨table1, table2, csvPath1, csvPath2,
          env.getSize csvPath1, env.getSize csvPath2,
          r.output, r.identical, r.command⟩, fs2, log)
      | (.error msg, fs2, log) => (.err msg, fs2, log)

/-- The `diff` command built at one ladder rung for the two sample files
of that rung. -/
def rungCommand (csvPath1 csvPath2 : CsvPath) (size : Nat)
    (contextLines : Int) : List String :=
  buildDiffCommand (sampleFilePath csvPath1 size "_1")
    (sampleFilePath csvPath2 size "_2") contextLines

/-- The oracle outcome of the `diff` subprocess at one ladder rung. -/
def rungResult (env : Env) (csvPath1 csvPath2 : CsvPath) (size : Nat)
    (contextLines : Int) : ProcResult :=
  env.runDiff (rungCommand csvPath1 csvPath2 size contextLines)
    ((env.contents csvPath1).take size) ((env.contents csvPath2).take size)

/-- One ladder rung passes cleanly with an Identical verdict: both sample
creations succeed, the `diff` subprocess neither times out nor reports
anything but exit status 0.  Escalation proceeds past exactly such
rungs. -/
abbrev rungClean (env : Env) (csvPath1 csvPath2 : CsvPath)
    (contextLines : Int) (size : Nat) : Prop :=
  env.headFails csvPath1 size = false ∧ env.headFails csvPath2 size = false ∧
  (rungResult env csvPath1 csvPath2 size contextLines).timedOut = false ∧
  (rungResult env csvPath1 csvPath2 size contextLines).returncode =
    DIFF_SUCCESS_CODE

/-! ## Quick comparison (metadata only) -/

/-- One entry of the `columns` list of `get_table_info`. -/
structure Column where
  col_name : String
  data_type : String
deriving DecidableEq

/-- The table-info dictionary supplied by the metadata collaborator. -/
structure TableInfo where
  table_name : String
  columns : List Column
  row_count : Int
deriving DecidableEq

/-- The Python set `{col["col_name"] for col in cols}`
(source lines 543-544). -/
def colNames (cols : List Column) : Finset String :=
  (cols.map Column.col_name).toFinset

/-- `_calculate_comparison_metrics` (source lines 516-531): signed
differences `info1 - info2`. -/
structure ComparisonMetrics where
  row_count_difference : Int
  column_count_difference : Int
deriving DecidableEq

def calculateComparisonMetrics (info1 info2 : TableInfo) : ComparisonMetrics :=
  ⟨info1.row_count - info2.row_count,
    (info1.columns.length : Int) - (info2.columns.length : Int)⟩

/-- `_compare_columns` (source lines 533-550): set comparison of the
column names only. -/
structure ColumnComparison where
  columns_match : Bool
  columns_missing_in_table2 : Finset String
  columns_missing_in_table1 : Finset String
deriving DecidableEq

def compareColumns (cols1 cols2 : List Column) : ColumnComparison :=
  ⟨decide (colNames cols1 = colNames cols2),
    colNames cols1 \ colNames cols2,
    colNames cols2 \ colNames cols1⟩

/-- Environment for the metadata collaborator of `quick_compare_tables`. -/
structure QuickEnv where
  getTableInfo : String → Option String → Option String → Except String TableInfo

/-- The success dictionary of `quick_compare_tables`
(`_create_quick_comparison_result`, source lines 552-573). -/
structure QuickReport where
  table1_info : TableInfo
  table2_info : TableInfo
  row_count_difference : Int
  column_count_difference : Int
  columns_match : Bool
  columns_missing_in_table2 : Finset String
  columns_missing_in_table1 : Finset String
deriving DecidableEq

inductive QuickOutcome where
  | ok (report : QuickReport)
  | err (message : String)
deriving DecidableEq

def QuickOutcome.success : QuickOutcome → Bool
  | .ok _ => true
  | .err _ => false

/-- `quick_compare_tables` (source lines 440-488). -/
def quickCompareTables (env : QuickEnv) (table1 table2 : String)
    (catalog1 schema1 catalog2 schema2 : Option String) : QuickOutcome :=
  match env.getTableInfo table1 catalog1 schema1 with
  | .error e => .err e
  | .ok info1 =>
    match env.getTableInfo table2 catalog2 schema2 with
    | .error e => .err e
    | .ok info2 =>
      .ok ⟨info1, info2,
        (calculateComparisonMetrics info1 info2).row_count_difference,
        (calculateComparisonMetrics info1 info2).column_count_difference,
        (compareColumns info1.columns info2.columns).columns_match,
        (compareColumns info1.columns info2.columns).columns_missing_in_table2,
        (compareColumns info1.columns info2.columns).columns_missing_in_table1⟩

/-! ## Concrete test fixtures for witnesses and counterexamples -/

def pathA : CsvPath := ⟨"/tmp", "t1.csv"⟩

def pathB : CsvPath := ⟨"/tmp", "t2.csv"⟩

/-- A `diff` oracle with the conventional exit contract: status 0 when
the two files' lines agree, 1 when they differ, never timing out. -/
def realRunDiff (lines1 lines2 : List String) : ProcResult :=
  ⟨false, if lines1 = lines2 then DIFF_SUCCESS_CODE else DIFF_DIFFERENT_CODE,
    "diff-output", ""⟩

/-- Test environment with a given disk-content assignment, a collaborator
serving `pathA` / `pathB`, reliable `head`, and a conventional `diff`. -/
def mkTestEnv (c : CsvPath → List String) : Env :=
  { getTableData := fun t _ _ => if t = "t1" then .ok pathA else .ok pathB
    getSize := fun _ => 100
    contents := c
    headFails := fun _ _ => false
    headErr := fun _ _ => ""
    runDiff := fun _ lines1 lines2 => realRunDiff lines1 lines2 }

/-- Datasets that differ in their second line. -/
def envDiffers : Env := mkTestEnv (fun p => if p = pathA then ["h", "1"] else ["h", "2"])

/-- Byte-identical datasets. -/
def envSame : Env := mkTestEnv (fun _ => ["h", "r1"])

/-- Like `envSame`, except the `diff` oracle misbehaves (times out with a
garbage status) on every command whose context flag is not `-u-3`.  Used
to witness that a run with `diff_lines = -3` consults the oracle only at
`-u-3` commands. -/
def envSameAlt : Env :=
  { mkTestEnv (fun _ => ["h", "r1"]) with
    runDiff := fun cmd lines1 lines2 =>
      if cmd.get? 1 = some (UNIFIED_DIFF_FORMAT ++ toString (-3 : Int))
      then realRunDiff lines1 lines2
      else ⟨true, 9, "x", "y"⟩ }

/-- `head` fails on the second dataset: creation of the second sample
file of the first rung raises. -/
def envHeadFail : Env :=
  { mkTestEnv (fun _ => ["h"]) with
    headFails := fun p _ => decide (p = pathB)
    headErr := fun _ _ => "head: cannot open" }

/-- `head` fails on the first dataset: creation of the first sample file
of the first rung raises. -/
def envHeadFail1 : Env :=
  { mkTestEnv (fun _ => ["h"]) with
    headFails := fun p _ => decide (p = pathA)
    headErr := fun _ _ => "head: input error" }

/-- The `diff` subprocess always exceeds its wall-clock timeout. -/
def envTimeout : Env :=
  { mkTestEnv (fun _ => ["h"]) with runDiff := fun _ _ _ => ⟨true, 0, "", ""⟩ }

/-- `head` succeeds at rung 5 but fails on the second dataset at
rung 25. -/
def envHeadFailLater : Env :=
  { mkTestEnv (fun _ => ["h"]) with
    headFails := fun p sz => decide (sz = 25 ∧ p = pathB)
    headErr := fun _ _ => "head: cannot open" }

/-- Identical six-line datasets; `diff` completes at the 5-line rung but
exceeds its wall-clock timeout on any larger sample. -/
def envTimeoutLater : Env :=
  { mkTestEnv (fun _ => ["a", "b", "c", "d", "e", "f"]) with
    runDiff := fun _ lines1 lines2 =>
      if lines1.length ≤ 5 then realRunDiff lines1 lines2
      else ⟨true, 0, "", ""⟩ }

/-- Six-line identical datasets and a `diff` that succeeds on the 5-line
samples but exits with status 2 on any larger sample. -/
def envBadExit : Env :=
  { mkTestEnv (fun _ => ["a", "b", "c", "d", "e", "f"]) with
    runDiff := fun _ lines1 _ =>
      ⟨false, if lines1.length ≤ 5 then DIFF_SUCCESS_CODE else 2, "",
        "diff: memory exhausted"⟩ }

/-- The collaborator cannot produce the first dataset. -/
def envServiceErr : Env :=
  { mkTestEnv (fun _ => ["h"]) with getTableData := fun _ _ _ => .error "Table not found" }

/-- The collaborator produces the first dataset but not the second. -/
def envServiceErr2 : Env :=
  { mkTestEnv (fun _ => ["h"]) with
    getTableData := fun t _ _ =>
      if t = "t1" then .ok pathA else .error "second table missing" }

/-- An eleven-line comparator output. -/
def elevenLineText : String := "a\nb\nc\nd\ne\nf\ng\nh\ni\nj\nk"

def qinfo1 : TableInfo :=
  ⟨"table1", [⟨"id", "int"⟩, ⟨"name", "string"⟩, ⟨"value", "double"⟩], 1000⟩

def qinfo2 : TableInfo :=
  ⟨"table2", [⟨"id", "int"⟩, ⟨"name", "string"⟩, ⟨"value", "double"⟩], 1200⟩

def quickEnvA : QuickEnv :=
  ⟨fun t _ _ => if t = "table1" then .ok qinfo1 else .ok qinfo2⟩

/-- The metadata collaborator cannot produce the first summary. -/
def quickEnvErr : QuickEnv :=
  ⟨fun _ _ _ => .error "metadata unavailable"⟩

/-- The metadata collaborator produces the first summary but not the
second. -/
def quickEnvErr2 : QuickEnv :=
  ⟨fun t _ _ =>
    if t = "table1" then .ok qinfo1 else .error "second metadata missing"⟩

/-- Three columns. -/
def qcolsBase : List Column :=
  [⟨"id", "int"⟩, ⟨"name", "string"⟩, ⟨"value", "double"⟩]

/-- The same column names in a different order with different declared
types. -/
def qcolsReordered : List Column :=
  [⟨"name", "text"⟩, ⟨"id", "bigint"⟩, ⟨"value", "float"⟩]

/-- Two of the three columns, reordered. -/
def qcolsDropped : List Column :=
  [⟨"name", "string"⟩, ⟨"id", "int"⟩]

/-! ## Lemmas on line splitting and joining -/

theorem splitLines_ne_nil (s : List Char) : splitLines s ≠ [] := by
  induction s with
  | nil => simp [splitLines]
  | cons c rest ih =>
    simp only [splitLines]
    split
    · simp
    · cases h : splitLines rest <;> simp

theorem splitLines_no_newline {l : List Char} (h : '\n' ∉ l) :
    splitLines l = [l] := by
  induction l with
  | nil => rfl
  | cons c rest ih =>
    simp only [List.mem_cons, not_or] at h
    have hcne : ¬ c = '\n' := fun hc => h.1 hc.symm
    simp only [splitLines]
    rw [ih h.2, if_neg hcne]

theorem mem_splitLines_no_newline (s : List Char) :
    ∀ l ∈ splitLines s, '\n' ∉ l := by
  induction s with
  | nil => simp [splitLines]
  | cons c rest ih =>
    simp only [splitLines]
    split
    · intro l hl
      rcases List.mem_cons.mp hl with h | h
      · simp [h]
      · exact ih l h
    · rename_i hc
      cases h : splitLines rest with
      | nil => exact absurd h (splitLines_ne_nil rest)
      | cons l0 ls =>
        intro l hl
        rcases List.mem_cons.mp hl with h' | h'
        · subst h'
          intro hmem
          rcases List.mem_cons.mp hmem with h'' | h''
          · exact hc h''.symm
          · exact ih l0 (h ▸ List.mem_cons_self l0 ls) h''
        · exact ih l (h ▸ List.mem_cons_of_mem l0 h')

theorem splitLines_newline_cons (t : List Char) :
    splitLines ('\n' :: t) = [] :: splitLines t := by
  simp [splitLines]

theorem splitLines_append_newline {l : List Char} (rest : List Char)
    (h : '\n' ∉ l) :
    splitLines (l ++ '\n' :: rest) = l :: splitLines rest := by
  induction l with
  | nil => simp [splitLines]
  | cons c t ih =>
    simp only [List.mem_cons, not_or] at h
    have hcne : ¬ c = '\n' := fun hc => h.1 hc.symm
    have hstep : (c :: t) ++ '\n' :: rest = c :: (t ++ '\n' :: rest) := rfl
    rw [hstep]
    simp only [splitLines]
    rw [ih h.2, if_neg hcne]

theorem splitLines_joinLines_append {A : List (List Char)} (m : List Char)
    (hA : ∀ l ∈ A, '\n' ∉ l) :
    splitLines (joinLines (A ++ [m])) = A ++ splitLines m := by
  induction A with
  | nil => simp [joinLines]
  | cons a A' ih =>
    have ha : '\n' ∉ a := hA a (List.mem_cons_self a A')
    have hA' : ∀ l ∈ A', '\n' ∉ l := fun l hl => hA l (List.mem_cons_of_mem a hl)
    cases A' with
    | nil =>
      show splitLines (a ++ '\n' :: joinLines [m]) = a :: [] ++ splitLines m
      rw [show joinLines [m] = m from rfl, splitLines_append_newline m ha]
      rfl
    | cons b B =>
      have h1 : (a :: b :: B) ++ [m] = a :: ((b :: B) ++ [m]) := rfl
      rw [h1]
      have h2 : joinLines (a :: ((b :: B) ++ [m])) =
          a ++ '\n' :: joinLines ((b :: B) ++ [m]) := rfl
      rw [h2, splitLines_append_newline _ ha, ih hA']
      rfl

/-! ## Lemmas on the truncation notice -/

theorem digitChar_big (n : Nat) (h : 16 ≤ n) : Nat.digitChar n = '*' := by
  unfold Nat.digitChar
  repeat rw [if_neg (by omega)]

theorem digitChar_ne_newline (n : Nat) : Nat.digitChar n ≠ '\n' := by
  by_cases h : n < 16
  · interval_cases n <;> decide
  · rw [digitChar_big n (by omega)]
    decide

theorem toDigitsCore_no_newline :
    ∀ (fuel n : Nat) (ds : List Char), '\n' ∉ ds →
      '\n' ∉ Nat.toDigitsCore 10 fuel n ds := by
  intro fuel
  induction fuel with
  | zero => intro n ds h; simpa [Nat.toDigitsCore] using h
  | succ f ih =>
    intro n ds h
    simp only [Nat.toDigitsCore]
    split
    · intro hmem
      rcases List.mem_cons.mp hmem with h' | h'
      · exact digitChar_ne_newline (n % 10) h'.symm
      · exact h h'
    · apply ih
      intro hmem
      rcases List.mem_cons.mp hmem with h' | h'
      · exact digitChar_ne_newline (n % 10) h'.symm
      · exact h h'

theorem toString_nat_no_newline (n : Nat) : '\n' ∉ (toString n).data := by
  show '\n' ∉ Nat.toDigits 10 n
  exact toDigitsCore_no_newline (n + 1) n [] (by simp)

theorem truncationMsg_eq (n : Nat) :
    truncationMsg n = '\n' :: truncationBody n := by
  simp only [truncationMsg, truncationBody, String.data_append]
  rfl

theorem truncationBody_no_newline (n : Nat) : '\n' ∉ truncationBody n := by
  intro h
  simp only [truncationBody, String.data_append, List.mem_append] at h
  rcases h with ((((h | h) | h) | h) | h)
  · exact absurd h (by decide)
  · exact toString_nat_no_newline _ h
  · exact absurd h (by decide)
  · exact toString_nat_no_newline _ h
  · exact absurd h (by decide)

/-! ## Lemmas on the output bounder -/

theorem limitChars_of_short {s : List Char}
    (h : (splitLines s).length ≤ MAX_DIFF_OUTPUT_LINES) :
    limitChars s = s := by
  unfold limitChars
  rw [if_pos h]

theorem limitChars_of_long {s : List Char}
    (h : MAX_DIFF_OUTPUT_LINES < (splitLines s).length) :
    limitChars s = joinLines ((splitLines s).take MAX_DIFF_OUTPUT_LINES ++
      [truncationMsg (splitLines s).length]) := by
  unfold limitChars
  rw [if_neg (Nat.not_le_of_lt h)]

theorem splitLines_limitChars_of_long {s : List Char}
    (h : MAX_DIFF_OUTPUT_LINES < (splitLines s).length) :
    splitLines (limitChars s) =
      (splitLines s).take MAX_DIFF_OUTPUT_LINES ++
        [[], truncationBody (splitLines s).length] := by
  rw [limitChars_of_long h]
  rw [splitLines_joinLines_append _
    (fun l hl => mem_splitLines_no_newline s l (List.take_subset _ _ hl))]
  rw [truncationMsg_eq, splitLines_newline_cons,
    splitLines_no_newline (truncationBody_no_newline _)]

theorem length_splitLines_limitChars_of_long {s : List Char}
    (h : MAX_DIFF_OUTPUT_LINES < (splitLines s).length) :
    (splitLines (limitChars s)).length = 12 := by
  rw [splitLines_limitChars_of_long h]
  rw [List.length_append, List.length_take]
  simp only [List.length_cons, List.length_nil]
  simp only [MAX_DIFF_OUTPUT_LINES] at h ⊢
  omega

theorem limitChars_limitChars_of_long {s : List Char}
    (h : MAX_DIFF_OUTPUT_LINES < (splitLines s).length) :
    limitChars (limitChars s) =
      joinLines ((splitLines s).take MAX_DIFF_OUTPUT_LINES ++
        [truncationMsg 12]) := by
  have h12 : (splitLines (limitChars s)).length = 12 :=
    length_splitLines_limitChars_of_long h
  rw [limitChars_of_long (by rw [h12]; decide)]
  rw [h12, splitLines_limitChars_of_long h]
  have hlen : ((splitLines s).take MAX_DIFF_OUTPUT_LINES).length =
      MAX_DIFF_OUTPUT_LINES := by
    rw [List.length_take]
    simp only [MAX_DIFF_OUTPUT_LINES] at h ⊢
    omega
  rw [List.take_left' hlen]

/-! ## Claim C3 -/

/-- C3 (counterexample): on an eleven-line comparator output the bounded
result has 12 lines, not the 11 the claim states. -/
theorem truncated_output_has_twelve_lines :
    MAX_DIFF_OUTPUT_LINES < (splitLines elevenLineText.data).length ∧
      (splitLines (limitDiffOutput elevenLineText).data).length ≠ 11 ∧
      (splitLines (limitDiffOutput elevenLineText).data).length = 12 := by
  refine ⟨?_, ?_, ?_⟩ <;> decide

/-- C3 (amended): a comparator output of more than 10 lines is bounded to
a text of exactly 12 lines — the first 10 lines of the input, one empty
line, and the truncation-notice line (the notice text itself begins with
a newline character); the notice states how many lines were omitted
(input line count minus 10) and that 10 lines are shown.  A text of 10 or
fewer lines is returned unchanged. -/
theorem output_bounding_line_counts (s : String) :
    ((splitLines s.data).length ≤ MAX_DIFF_OUTPUT_LINES →
      limitDiffOutput s = s) ∧
    (MAX_DIFF_OUTPUT_LINES < (splitLines s.data).length →
      splitLines (limitDiffOutput s).data =
        (splitLines s.data).take MAX_DIFF_OUTPUT_LINES ++
          [[], truncationBody (splitLines s.data).length] ∧
      (splitLines (limitDiffOutput s).data).length = 12 ∧
      truncationBody (splitLines s.data).length =
        ("... (truncated " ++
          toString ((splitLines s.data).length - MAX_DIFF_OUTPUT_LINES) ++
          " more lines, showing first " ++ toString MAX_DIFF_OUTPUT_LINES ++
          " lines)").data) := by
  constructor
  · intro h
    show (⟨limitChars s.data⟩ : String) = s
    rw [limitChars_of_short h]
  · intro h
    refine ⟨?_, ?_, rfl⟩
    · show splitLines (limitChars s.data) = _
      exact splitLines_limitChars_of_long h
    · show (splitLines (limitChars s.data)).length = 12
      exact length_splitLines_limitChars_of_long h

/-- Witness for C3's amended theorem at the eleven-line output. -/
theorem output_bounding_line_counts_witness :
    MAX_DIFF_OUTPUT_LINES < (splitLines elevenLineText.data).length ∧
      splitLines (limitDiffOutput elevenLineText).data =
        (splitLines elevenLineText.data).take MAX_DIFF_OUTPUT_LINES ++
          [[], truncationBody (splitLines elevenLineText.data).length] :=
  ⟨by decide, ((output_bounding_line_counts elevenLineText).2 (by decide)).1⟩

/-! ## Claim C8 -/

/-- C8 (counterexample): bounding is not idempotent — re-bounding the
bounded eleven-line output changes it (the truncation notice now reports
2 omitted lines instead of 1). -/
theorem rebounding_changes_truncated_output :
    limitDiffOutput (limitDiffOutput elevenLineText) ≠
      limitDiffOutput elevenLineText := by
  decide

/-- C8 (amended): the bounder is a pure function and is the identity
(hence idempotent) on texts of at most 10 lines, but it is not idempotent
on already-bounded input: bounding a text of more than 10 lines yields a
12-line text, and re-bounding that output truncates again, producing the
same first 10 lines with a notice reporting 2 omitted lines — so
re-bounding is a no-op only when the original notice itself reported 2
omitted lines. -/
theorem output_bounder_rebound_behaviour (s : String) :
    ((splitLines s.data).length ≤ MAX_DIFF_OUTPUT_LINES →
      limitDiffOutput (limitDiffOutput s) = limitDiffOutput s) ∧
    (MAX_DIFF_OUTPUT_LINES < (splitLines s.data).length →
      (limitDiffOutput (limitDiffOutput s)).data =
        joinLines ((splitLines s.data).take MAX_DIFF_OUTPUT_LINES ++
          [truncationMsg 12])) := by
  constructor
  · intro h
    have hs : limitDiffOutput s = s := by
      show (⟨limitChars s.data⟩ : String) = s
      rw [limitChars_of_short h]
    rw [hs]
    exact hs
  · intro h
    show limitChars (limitChars s.data) = _
    exact limitChars_limitChars_of_long h

/-- Witness for C8's amended theorem at the eleven-line output. -/
theorem output_bounder_rebound_behaviour_witness :
    MAX_DIFF_OUTPUT_LINES < (splitLines elevenLineText.data).length ∧
      (limitDiffOutput (limitDiffOutput elevenLineText)).data =
        joinLines ((splitLines elevenLineText.data).take MAX_DIFF_OUTPUT_LINES ++
          [truncationMsg 12]) :=
  ⟨by decide, (output_bounder_rebound_behaviour elevenLineText).2 (by decide)⟩

/-! ## Claim C6 -/

/-- C6 (confirmed): `quick_compare_tables` reports the signed differences
`info1 - info2` for row count and column count (never absolute values),
and `columns_match` is name-set equality. -/
theorem quick_compare_signed_differences (env : QuickEnv) (t1 t2 : String)
    (c1 s1 c2 s2 : Option String) (info1 info2 : TableInfo)
    (h1 : env.getTableInfo t1 c1 s1 = .ok info1)
    (h2 : env.getTableInfo t2 c2 s2 = .ok info2) :
    ∃ r : QuickReport,
      quickCompareTables env t1 t2 c1 s1 c2 s2 = .ok r ∧
      r.row_count_difference = info1.row_count - info2.row_count ∧
      r.column_count_difference =
        (info1.columns.length : Int) - (info2.columns.length : Int) ∧
      r.columns_match = decide (colNames info1.columns = colNames info2.columns) := by
  unfold quickCompareTables
  rw [h1, h2]
  exact ⟨_, rfl, rfl, rfl, rfl⟩

/-- Witness for C6 at the claim's concrete scenario: 1000 rows vs 1200
rows, both with the same 3 column names. -/
theorem quick_compare_signed_differences_witness :
    ∃ r : QuickReport,
      quickCompareTables quickEnvA "table1" "table2" none none none none = .ok r ∧
      r.row_count_difference = -200 ∧
      r.column_count_difference = 0 ∧
      r.columns_match = true := by
  obtain ⟨r, hr, hrow, hcol, hmatch⟩ :=
    quick_compare_signed_differences quickEnvA "table1" "table2"
      none none none none qinfo1 qinfo2 rfl rfl
  refine ⟨r, hr, ?_, ?_, ?_⟩
  · rw [hrow]; decide
  · rw [hcol]; decide
  · rw [hmatch]; decide

/-! ## Claim C7 -/

/-- C7 (confirmed): the quick-compare column comparison is set-based on
column names only: `columns_match` holds exactly when the name sets are
equal; a name is in `columns_missing_in_table2` exactly when table 1 has
it and table 2 lacks it (symmetrically for the other set), so no name is
in both sets and a name present in both tables is in neither; and the
whole comparison depends only on the name sets (declared types and column
order are ignored). -/
theorem compare_columns_set_based (cols1 cols2 cols1x : List Column) (n : String) :
    ((compareColumns cols1 cols2).columns_match = true ↔
      colNames cols1 = colNames cols2) ∧
    (n ∈ (compareColumns cols1 cols2).columns_missing_in_table2 ↔
      n ∈ colNames cols1 ∧ n ∉ colNames cols2) ∧
    (n ∈ (compareColumns cols1 cols2).columns_missing_in_table1 ↔
      n ∈ colNames cols2 ∧ n ∉ colNames cols1) ∧
    ¬ (n ∈ (compareColumns cols1 cols2).columns_missing_in_table2 ∧
       n ∈ (compareColumns cols1 cols2).columns_missing_in_table1) ∧
    (n ∈ colNames cols1 → n ∈ colNames cols2 →
      n ∉ (compareColumns cols1 cols2).columns_missing_in_table2 ∧
      n ∉ (compareColumns cols1 cols2).columns_missing_in_table1) ∧
    (colNames cols1x = colNames cols1 →
      compareColumns cols1x cols2 = compareColumns cols1 cols2) := by
  refine ⟨?_, ?_, ?_, ?_, ?_, ?_⟩
  · simp [compareColumns]
  · simp [compareColumns, Finset.mem_sdiff]
  · simp [compareColumns, Finset.mem_sdiff]
  · simp only [compareColumns, Finset.mem_sdiff]
    tauto
  · intro hn1 hn2
    simp only [compareColumns, Finset.mem_sdiff]
    tauto
  · intro hEq
    simp [compareColumns, hEq]

/-- Witness for C7 at the claim's scenario: three columns against the
same names reordered and retyped with one column removed. -/
theorem compare_columns_set_based_witness :
    ¬ ((compareColumns qcolsBase qcolsDropped).columns_match = true) ∧
    "value" ∈ (compareColumns qcolsBase qcolsDropped).columns_missing_in_table2 ∧
    "value" ∉ (compareColumns qcolsBase qcolsDropped).columns_missing_in_table1 ∧
    compareColumns qcolsReordered qcolsDropped =
      compareColumns qcolsBase qcolsDropped := by
  have h := compare_columns_set_based qcolsBase qcolsDropped qcolsReordered "value"
  refine ⟨fun hc => absurd (h.1.mp hc) (by decide),
    h.2.1.mpr (by decide),
    fun hc => absurd (h.2.2.1.mp hc) (by decide),
    h.2.2.2.2.2 (by decide)⟩

/-! ## Claim C9 -/

/-- C9 (counterexample): the temporary sample-file name has no per-call
component — two distinct concurrent requests sampling the same source
file at the same sample size get the same path, a collision. -/
theorem concurrent_requests_share_sample_path :
    requestSamplePath 0 ⟨"/tmp", "data.csv"⟩ 5 "_1" =
      requestSamplePath 1 ⟨"/tmp", "data.csv"⟩ 5 "_1" ∧
    requestSamplePath 0 ⟨"/tmp", "data.csv"⟩ 5 "_1" =
      ⟨"/tmp", "sample_5_1_data.csv"⟩ :=
  ⟨rfl, by decide⟩

/-- C9 (amended): the temporary sample-file name includes the sample size
and a fixed per-file suffix (`_1` for the first table's sample, `_2` for
the second), which distinguishes the two samples within a single call;
the name contains no per-call component, so it is identical across
requests, and two concurrent requests on the same dataset pair produce
colliding temporary paths for the same source file and sample size. -/
theorem sample_path_per_file_not_per_call (orig : CsvPath) (size : Nat)
    (sfx : String) (req1 req2 : Nat) :
    requestSamplePath req1 orig size sfx = requestSamplePath req2 orig size sfx ∧
    sampleFilePath orig size sfx =
      ⟨orig.dir, "sample_" ++ toString size ++ sfx ++ "_" ++ orig.base⟩ ∧
    (∀ f1 f2 : CsvPath, sampleFilePath f1 size "_1" ≠ sampleFilePath f2 size "_2") := by
  refine ⟨rfl, rfl, ?_⟩
  intro f1 f2 h
  have hb : "sample_" ++ toString size ++ "_1" ++ "_" ++ f1.base =
      "sample_" ++ toString size ++ "_2" ++ "_" ++ f2.base :=
    congrArg CsvPath.base h
  have hd := congrArg String.data hb
  simp only [String.data_append, List.append_assoc] at hd
  have h1 := List.append_cancel_left hd
  have h2 := List.append_cancel_left h1
  simp at h2

/-- Witness for C9's amended theorem. -/
theorem sample_path_per_file_not_per_call_witness :
    requestSamplePath 0 pathA 25 "_1" = requestSamplePath 7 pathA 25 "_1" ∧
    sampleFilePath pathA 25 "_1" ≠ sampleFilePath pathB 25 "_2" :=
  ⟨(sample_path_per_file_not_per_call pathA 25 "_1" 0 7).1,
    (sample_path_per_file_not_per_call pathA 25 "_1" 0 7).2.2 pathA pathB⟩

/-! ## Lemmas on one rung of the sampling loop -/

theorem rungResult_def (env : Env) (f1 f2 : CsvPath) (size : Nat) (ctx : Int) :
    rungResult env f1 f2 size ctx =
      env.runDiff (buildDiffCommand (sampleFilePath f1 size "_1")
          (sampleFilePath f2 size "_2") ctx)
        ((env.contents f1).take size) ((env.contents f2).take size) := rfl

theorem cleanup_pair (a b : CsvPath) : cleanupSampleFiles [b, a] [a, b] = [] := by
  unfold cleanupSampleFiles
  by_cases hab : b = a
  · subst hab
    simp [List.filter]
  · simp [List.filter, hab]

theorem smartDiffGo_create1_fails (env : Env) (f1 f2 : CsvPath) (ctx : Int)
    (size : Nat) (rest : List Nat) (fs : FS) (log : List Nat)
    (hh1 : env.headFails f1 size = true) :
    smartDiffGo env f1 f2 ctx (size :: rest) fs log =
      (.error (.exception ("Failed to create sample file: " ++ env.headErr f1 size)),
        fs, log ++ [size]) := by
  simp [smartDiffGo, createSampleFile, hh1]

theorem smartDiffGo_create2_fails (env : Env) (f1 f2 : CsvPath) (ctx : Int)
    (size : Nat) (rest : List Nat) (fs : FS) (log : List Nat)
    (hh1 : env.headFails f1 size = false) (hh2 : env.headFails f2 size = true) :
    smartDiffGo env f1 f2 ctx (size :: rest) fs log =
      (.error (.exception ("Failed to create sample file: " ++ env.headErr f2 size)),
        sampleFilePath f1 size "_1" :: fs, log ++ [size]) := by
  simp [smartDiffGo, createSampleFile, hh1, hh2]

theorem smartDiffGo_timeout (env : Env) (f1 f2 : CsvPath) (ctx : Int)
    (size : Nat) (rest : List Nat) (fs : FS) (log : List Nat)
    (hh1 : env.headFails f1 size = false) (hh2 : env.headFails f2 size = false)
    (hto : (rungResult env f1 f2 size ctx).timedOut = true) :
    smartDiffGo env f1 f2 ctx (size :: rest) fs log =
      (.error .timeoutExpired,
        cleanupSampleFiles
          (sampleFilePath f2 size "_2" :: sampleFilePath f1 size "_1" :: fs)
          [sampleFilePath f1 size "_1", sampleFilePath f2 size "_2"],
        log ++ [size]) := by
  simp [smartDiffGo, createSampleFile, hh1, hh2, ← rungResult_def, hto]

theorem smartDiffGo_different (env : Env) (f1 f2 : CsvPath) (ctx : Int)
    (size : Nat) (rest : List Nat) (fs : FS) (log : List Nat)
    (hh1 : env.headFails f1 size = false) (hh2 : env.headFails f2 size = false)
    (hto : (rungResult env f1 f2 size ctx).timedOut = false)
    (hret : (rungResult env f1 f2 size ctx).returncode = DIFF_DIFFERENT_CODE) :
    smartDiffGo env f1 f2 ctx (size :: rest) fs log =
      (.ok ⟨"diff (sample " ++ toString size ++ " lines) " ++ pathStr f1 ++
          " " ++ pathStr f2,
        limitDiffOutput (rungResult env f1 f2 size ctx).stdout,
        false, DIFF_DIFFERENT_CODE, some size⟩,
        cleanupSampleFiles
          (sampleFilePath f2 size "_2" :: sampleFilePath f1 size "_1" :: fs)
          [sampleFilePath f1 size "_1", sampleFilePath f2 size "_2"],
        log ++ [size]) := by
  simp [smartDiffGo, createSampleFile, hh1, hh2, ← rungResult_def, hto, hret,
    processDiffResult, DIFF_DIFFERENT_CODE, DIFF_SUCCESS_CODE]

theorem smartDiffGo_bad_code_single (env : Env) (f1 f2 : CsvPath) (ctx : Int)
    (size : Nat) (rest : List Nat) (fs : FS) (log : List Nat)
    (hh1 : env.headFails f1 size = false) (hh2 : env.headFails f2 size = false)
    (hto : (rungResult env f1 f2 size ctx).timedOut = false)
    (hb0 : (rungResult env f1 f2 size ctx).returncode ≠ DIFF_SUCCESS_CODE)
    (hb1 : (rungResult env f1 f2 size ctx).returncode ≠ DIFF_DIFFERENT_CODE) :
    smartDiffGo env f1 f2 ctx (size :: rest) fs log =
      (.error (.calledProcessError (rungResult env f1 f2 size ctx).returncode
          (if (rungResult env f1 f2 size ctx).stderr = ""
            then "Unknown diff error" else (rungResult env f1 f2 size ctx).stderr)),
        cleanupSampleFiles
          (sampleFilePath f2 size "_2" :: sampleFilePath f1 size "_1" :: fs)
          [sampleFilePath f1 size "_1", sampleFilePath f2 size "_2"],
        log ++ [size]) := by
  simp [smartDiffGo, createSampleFile, hh1, hh2, ← rungResult_def, hto, hb0, hb1,
    processDiffResult]

theorem smartDiffGo_skip (env : Env) (f1 f2 : CsvPath) (ctx : Int)
    (size : Nat) (rest : List Nat) (fs : FS) (log : List Nat)
    (hh1 : env.headFails f1 size = false) (hh2 : env.headFails f2 size = false)
    (hto : (rungResult env f1 f2 size ctx).timedOut = false)
    (hret : (rungResult env f1 f2 size ctx).returncode = DIFF_SUCCESS_CODE) :
    smartDiffGo env f1 f2 ctx (size :: rest) fs log =
      smartDiffGo env f1 f2 ctx rest
        (cleanupSampleFiles
          (sampleFilePath f2 size "_2" :: sampleFilePath f1 size "_1" :: fs)
          [sampleFilePath f1 size "_1", sampleFilePath f2 size "_2"])
        (log ++ [size]) := by
  simp [smartDiffGo, createSampleFile, hh1, hh2, ← rungResult_def, hto, hret,
    DIFF_DIFFERENT_CODE, DIFF_SUCCESS_CODE]

/-! ## Claim C1 -/

/-- C1 (confirmed): when the external comparator follows the conventional
exit contract (status 0 iff the sample lines agree, no timeout), sample
creation succeeds, and the two datasets differ within their first 5
lines, the progressive sampler returns a Different verdict
(`identical = false`) tagged `sample_size = 5` — the first ladder size —
and the loop stops after that first rung: the list of attempted sample
sizes is exactly `[5]`, so no larger sample is ever extracted or
compared. -/
theorem first_rung_difference_short_circuits
    (env : Env) (f1 f2 : CsvPath) (ctx : Int) (fs : FS)
    (hconv : ∀ (cmd : List String) (la lb : List String),
      (env.runDiff cmd la lb).timedOut = false ∧
      (env.runDiff cmd la lb).returncode =
        (if la = lb then DIFF_SUCCESS_CODE else DIFF_DIFFERENT_CODE))
    (hh1 : env.headFails f1 5 = false) (hh2 : env.headFails f2 5 = false)
    (hne : (env.contents f1).take 5 ≠ (env.contents f2).take 5) :
    ∃ r : DiffResult,
      (smartDiffWithSampling env f1 f2 ctx fs).1 = .ok r ∧
      r.identical = false ∧
      r.sample_size = some 5 ∧
      (smartDiffWithSampling env f1 f2 ctx fs).2.2 = [5] := by
  have hto : (rungResult env f1 f2 5 ctx).timedOut = false := (hconv _ _ _).1
  have hret : (rungResult env f1 f2 5 ctx).returncode = DIFF_DIFFERENT_CODE := by
    rw [rungResult_def, (hconv _ _ _).2, if_neg hne]
  have hstep : smartDiffWithSampling env f1 f2 ctx fs =
      smartDiffGo env f1 f2 ctx (5 :: [25, 100, 500]) fs [] := rfl
  rw [hstep, smartDiffGo_different env f1 f2 ctx 5 [25, 100, 500] fs []
    hh1 hh2 hto hret]
  exact ⟨_, rfl, rfl, rfl, rfl⟩

/-- Witness for C1: two datasets whose second line differs (`1` vs `2`). -/
theorem first_rung_difference_short_circuits_witness :
    ∃ r : DiffResult,
      (smartDiffWithSampling envDiffers pathA pathB 10 []).1 = .ok r ∧
      r.identical = false ∧
      r.sample_size = some 5 ∧
      (smartDiffWithSampling envDiffers pathA pathB 10 []).2.2 = [5] :=
  first_rung_difference_short_circuits envDiffers pathA pathB 10 []
    (fun _ _ _ => ⟨rfl, rfl⟩) rfl rfl (by decide)

/-! ## Claim C2 -/

/-- C2 (confirmed): when the comparator follows the conventional exit
contract, sample creation succeeds, and the first 500 lines of the two
datasets agree (as they do for datasets differing only after line 600),
every ladder size yields an Identical verdict and the progressive sampler
returns Identical (`identical = true`) with `sample_size = 500` and the
note that verification was by progressive sampling; all four ladder sizes
`[5, 25, 100, 500]` are attempted. -/
theorem progressive_sampling_reports_identical
    (env : Env) (f1 f2 : CsvPath) (ctx : Int) (fs : FS)
    (hconv : ∀ (cmd : List String) (la lb : List String),
      (env.runDiff cmd la lb).timedOut = false ∧
      (env.runDiff cmd la lb).returncode =
        (if la = lb then DIFF_SUCCESS_CODE else DIFF_DIFFERENT_CODE))
    (hh : ∀ size ∈ INCREMENTAL_SAMPLE_SIZES,
      env.headFails f1 size = false ∧ env.headFails f2 size = false)
    (heq : (env.contents f1).take 500 = (env.contents f2).take 500) :
    (smartDiffWithSampling env f1 f2 ctx fs).1 =
      .ok ⟨"diff (smart sampling up to 500 lines)",
        "Files are identical (verified through progressive sampling)",
        true, DIFF_SUCCESS_CODE, some 500⟩ ∧
    (smartDiffWithSampling env f1 f2 ctx fs).2.2 = [5, 25, 100, 500] := by
  have hk : ∀ k, k ≤ 500 →
      (env.contents f1).take k = (env.contents f2).take k := by
    intro k hkle
    have h := congrArg (List.take k) heq
    rwa [List.take_take, List.take_take, Nat.min_eq_left hkle] at h
  have hident : ∀ k, k ≤ 500 →
      (rungResult env f1 f2 k ctx).timedOut = false ∧
      (rungResult env f1 f2 k ctx).returncode = DIFF_SUCCESS_CODE := by
    intro k hkle
    refine ⟨(hconv _ _ _).1, ?_⟩
    rw [rungResult_def, (hconv _ _ _).2, if_pos (hk k hkle)]
  have hstep : smartDiffWithSampling env f1 f2 ctx fs =
      smartDiffGo env f1 f2 ctx (5 :: 25 :: 100 :: [500]) fs [] := rfl
  rw [hstep,
    smartDiffGo_skip env f1 f2 ctx 5 _ fs []
      (hh 5 (by decide)).1 (hh 5 (by decide)).2
      (hident 5 (by omega)).1 (hident 5 (by omega)).2,
    smartDiffGo_skip env f1 f2 ctx 25 _ _ _
      (hh 25 (by decide)).1 (hh 25 (by decide)).2
      (hident 25 (by omega)).1 (hident 25 (by omega)).2,
    smartDiffGo_skip env f1 f2 ctx 100 _ _ _
      (hh 100 (by decide)).1 (hh 100 (by decide)).2
      (hident 100 (by omega)).1 (hident 100 (by omega)).2,
    smartDiffGo_skip env f1 f2 ctx 500 _ _ _
      (hh 500 (by decide)).1 (hh 500 (by decide)).2
      (hident 500 (by omega)).1 (hident 500 (by omega)).2]
  exact ⟨rfl, rfl⟩

/-- Witness for C2: byte-identical datasets. -/
theorem progressive_sampling_reports_identical_witness :
    (smartDiffWithSampling envSame pathA pathB 10 []).1 =
      .ok ⟨"diff (smart sampling up to 500 lines)",
        "Files are identical (verified through progressive sampling)",
        true, DIFF_SUCCESS_CODE, some 500⟩ ∧
    (smartDiffWithSampling envSame pathA pathB 10 []).2.2 = [5, 25, 100, 500] :=
  progressive_sampling_reports_identical envSame pathA pathB 10 []
    (fun _ _ _ => ⟨rfl, rfl⟩) (fun _ _ => ⟨rfl, rfl⟩) rfl

/-! ## Claim C5 -/

theorem smartDiffGo_fs_empty (env : Env) (f1 f2 : CsvPath) (ctx : Int)
    (hheads : ∀ p sz, env.headFails p sz = false) :
    ∀ (ladder : List Nat) (log : List Nat),
      (smartDiffGo env f1 f2 ctx ladder [] log).2.1 = [] := by
  intro ladder
  induction ladder with
  | nil => intro _; rfl
  | cons size rest ih =>
    intro log
    by_cases hto : (rungResult env f1 f2 size ctx).timedOut = true
    · rw [smartDiffGo_timeout env f1 f2 ctx size rest [] log
        (hheads f1 size) (hheads f2 size) hto]
      exact cleanup_pair _ _
    · have hto' : (rungResult env f1 f2 size ctx).timedOut = false := by
        simpa using hto
      by_cases h1 : (rungResult env f1 f2 size ctx).returncode = DIFF_DIFFERENT_CODE
      · rw [smartDiffGo_different env f1 f2 ctx size rest [] log
          (hheads f1 size) (hheads f2 size) hto' h1]
        exact cleanup_pair _ _
      · by_cases h0 : (rungResult env f1 f2 size ctx).returncode = DIFF_SUCCESS_CODE
        · rw [smartDiffGo_skip env f1 f2 ctx size rest [] log
            (hheads f1 size) (hheads f2 size) hto' h0, cleanup_pair]
          exact ih (log ++ [size])
        · rw [smartDiffGo_bad_code_single env f1 f2 ctx size rest [] log
            (hheads f1 size) (hheads f2 size) hto' h0 h1]
          exact cleanup_pair _ _

/-- C5 (counterexample): when creating the second sample file of the
first rung fails, the already-created first sample file is left on disk
— `compare_tables` returns an error result but the temp-file set is not
empty. -/
theorem sample_file_leak_on_creation_failure :
    (compareTables envHeadFail "t1" "t2" none none none none 10 []).2.1 =
      [⟨"/tmp", "sample_5_1_t1.csv"⟩] ∧
    (compareTables envHeadFail "t1" "t2" none none none none 10 []).2.1 ≠ [] ∧
    (compareTables envHeadFail "t1" "t2" none none none none 10 []).1.success =
      false := by
  refine ⟨?_, ?_, ?_⟩ <;> decide

/-- C5 (amended): starting from a working directory with no sample files,
a `compare_tables` call in which every sample-file creation succeeds
leaves no sample files behind, whatever the collaborator and comparator
do (difference, timeout, and non-{0,1} exit status included) — both
sample files of every attempted rung are deleted before the call returns.
When creation of a rung's second sample file fails, however, the rung's
first sample file is leaked, because both files are created before the
scoped cleanup region begins. -/
theorem sample_cleanup_when_creation_succeeds
    (env : Env) (t1 t2 : String) (c1 s1 c2 s2 : Option String) (d : Int)
    (hheads : ∀ p sz, env.headFails p sz = false) :
    (compareTables env t1 t2 c1 s1 c2 s2 d []).2.1 = [] := by
  simp only [compareTables]
  cases hg1 : env.getTableData t1 c1 s1 with
  | error e => rfl
  | ok p1 =>
    cases hg2 : env.getTableData t2 c2 s2 with
    | error e => rfl
    | ok p2 =>
      simp only [runDiffCommand, smartDiffWithSampling]
      have hfs := smartDiffGo_fs_empty env p1 p2
        (min d (MAX_DIFF_OUTPUT_LINES : Int)) hheads INCREMENTAL_SAMPLE_SIZES []
      rcases hsm : smartDiffGo env p1 p2 (min d (MAX_DIFF_OUTPUT_LINES : Int))
        INCREMENTAL_SAMPLE_SIZES [] [] with ⟨res, fs2, log⟩
      rw [hsm] at hfs
      cases res with
      | ok r => simpa using hfs
      | error e => simpa using hfs

/-- Witness for C5's amended theorem. -/
theorem sample_cleanup_when_creation_succeeds_witness :
    (compareTables envSame "t1" "t2" none none none none 10 []).2.1 = [] :=
  sample_cleanup_when_creation_succeeds envSame "t1" "t2" none none none none 10
    (fun _ _ => rfl)

/-! ## Claim C4 -/

theorem smartDiffGo_skip_prefix (env : Env) (f1 f2 : CsvPath) (ctx : Int) :
    ∀ (pre tail : List Nat) (fs : FS) (log : List Nat),
      (∀ sz ∈ pre, rungClean env f1 f2 ctx sz) →
      ∃ fs2, smartDiffGo env f1 f2 ctx (pre ++ tail) fs log =
        smartDiffGo env f1 f2 ctx tail fs2 (log ++ pre) := by
  intro pre
  induction pre with
  | nil =>
    intro tail fs log _
    refine ⟨fs, ?_⟩
    simp only [List.nil_append, List.append_nil]
  | cons a pre' ih =>
    intro tail fs log hpre
    have ha := hpre a (List.mem_cons_self a pre')
    rw [List.cons_append, smartDiffGo_skip env f1 f2 ctx a _ fs log
      ha.1 ha.2.1 ha.2.2.1 ha.2.2.2]
    obtain ⟨fs2, h⟩ := ih tail _ (log ++ [a])
      (fun sz hsz => hpre sz (List.mem_cons_of_mem a hsz))
    refine ⟨fs2, ?_⟩
    rw [h]
    simp [List.append_assoc]

/-- Reduction of `compare_tables` when the sampler ends in a pending
exception. -/
theorem compareTables_of_diff_error (env : Env) (t1 t2 : String)
    (c1 s1 c2 s2 : Option String) (d : Int) (fs : FS) (p1 p2 : CsvPath)
    (e : PyErr)
    (hg1 : env.getTableData t1 c1 s1 = .ok p1)
    (hg2 : env.getTableData t2 c2 s2 = .ok p2)
    (hrun : (smartDiffWithSampling env p1 p2
      (min d (MAX_DIFF_OUTPUT_LINES : Int)) fs).1 = .error e) :
    (compareTables env t1 t2 c1 s1 c2 s2 d fs).1 = .err (pyErrMessage e) ∧
    (compareTables env t1 t2 c1 s1 c2 s2 d fs).2.2 =
      (smartDiffWithSampling env p1 p2
        (min d (MAX_DIFF_OUTPUT_LINES : Int)) fs).2.2 := by
  simp only [compareTables, hg1, hg2, runDiffCommand]
  rcases h : smartDiffWithSampling env p1 p2
    (min d (MAX_DIFF_OUTPUT_LINES : Int)) fs with ⟨res, fs2, log⟩
  rw [h] at hrun
  simp only at hrun
  subst hrun
  exact ⟨rfl, rfl⟩

/-- C4 (confirmed): every failure of `compare_tables` and of
`quick_compare_tables` — collaborator failure on either table or either
metadata summary, sample-extraction failure on either file at any ladder
rung reached by escalation, a comparator timeout at any reached rung, or
a comparator exit status outside {0, 1} at any reached rung — is returned
as a structured error result (an `err` outcome whose `success` field is
`false`), never leaked as an exception and never reported as a success;
every such failure aborts escalation (the attempted sizes stop at the
failing rung), and a non-{0, 1} exit status in particular is never turned
into an identical verdict. -/
theorem compare_tables_structured_errors
    (env : Env) (qenv : QuickEnv) (t1 t2 : String)
    (c1 s1 c2 s2 : Option String) (d : Int) (fs : FS) :
    (∀ e, env.getTableData t1 c1 s1 = .error e →
      (compareTables env t1 t2 c1 s1 c2 s2 d fs).1 = .err e ∧
      (compareTables env t1 t2 c1 s1 c2 s2 d fs).1.success = false) ∧
    (∀ p1 e, env.getTableData t1 c1 s1 = .ok p1 →
      env.getTableData t2 c2 s2 = .error e →
      (compareTables env t1 t2 c1 s1 c2 s2 d fs).1 = .err e ∧
      (compareTables env t1 t2 c1 s1 c2 s2 d fs).1.success = false) ∧
    (∀ p1 p2 (pre : List Nat) (size : Nat) (rest : List Nat),
      env.getTableData t1 c1 s1 = .ok p1 →
      env.getTableData t2 c2 s2 = .ok p2 →
      INCREMENTAL_SAMPLE_SIZES = pre ++ size :: rest →
      (∀ sz ∈ pre, rungClean env p1 p2
        (min d (MAX_DIFF_OUTPUT_LINES : Int)) sz) →
      env.headFails p1 size = true →
      (compareTables env t1 t2 c1 s1 c2 s2 d fs).1 =
        .err ("Error running diff: Failed to create sample file: " ++
          env.headErr p1 size) ∧
      (compareTables env t1 t2 c1 s1 c2 s2 d fs).2.2 = pre ++ [size]) ∧
    (∀ p1 p2 (pre : List Nat) (size : Nat) (rest : List Nat),
      env.getTableData t1 c1 s1 = .ok p1 →
      env.getTableData t2 c2 s2 = .ok p2 →
      INCREMENTAL_SAMPLE_SIZES = pre ++ size :: rest →
      (∀ sz ∈ pre, rungClean env p1 p2
        (min d (MAX_DIFF_OUTPUT_LINES : Int)) sz) →
      env.headFails p1 size = false → env.headFails p2 size = true →
      (compareTables env t1 t2 c1 s1 c2 s2 d fs).1 =
        .err ("Error running diff: Failed to create sample file: " ++
          env.headErr p2 size) ∧
      (compareTables env t1 t2 c1 s1 c2 s2 d fs).2.2 = pre ++ [size]) ∧
    (∀ p1 p2 (pre : List Nat) (size : Nat) (rest : List Nat),
      env.getTableData t1 c1 s1 = .ok p1 →
      env.getTableData t2 c2 s2 = .ok p2 →
      INCREMENTAL_SAMPLE_SIZES = pre ++ size :: rest →
      (∀ sz ∈ pre, rungClean env p1 p2
        (min d (MAX_DIFF_OUTPUT_LINES : Int)) sz) →
      env.headFails p1 size = false → env.headFails p2 size = false →
      (rungResult env p1 p2 size
        (min d (MAX_DIFF_OUTPUT_LINES : Int))).timedOut = true →
      (compareTables env t1 t2 c1 s1 c2 s2 d fs).1 =
        .err "Diff command timed out after 5 minutes" ∧
      (compareTables env t1 t2 c1 s1 c2 s2 d fs).2.2 = pre ++ [size]) ∧
    (∀ p1 p2 (pre : List Nat) (size : Nat) (rest : List Nat),
      env.getTableData t1 c1 s1 = .ok p1 →
      env.getTableData t2 c2 s2 = .ok p2 →
      INCREMENTAL_SAMPLE_SIZES = pre ++ size :: rest →
      (∀ sz ∈ pre, rungClean env p1 p2
        (min d (MAX_DIFF_OUTPUT_LINES : Int)) sz) →
      env.headFails p1 size = false → env.headFails p2 size = false →
      (rungResult env p1 p2 size
        (min d (MAX_DIFF_OUTPUT_LINES : Int))).timedOut = false →
      (rungResult env p1 p2 size
        (min d (MAX_DIFF_OUTPUT_LINES : Int))).returncode ≠ DIFF_SUCCESS_CODE →
      (rungResult env p1 p2 size
        (min d (MAX_DIFF_OUTPUT_LINES : Int))).returncode ≠ DIFF_DIFFERENT_CODE →
      (∃ msg, (compareTables env t1 t2 c1 s1 c2 s2 d fs).1 = .err msg) ∧
      (∀ r, (compareTables env t1 t2 c1 s1 c2 s2 d fs).1 ≠ .ok r) ∧
      (compareTables env t1 t2 c1 s1 c2 s2 d fs).2.2 = pre ++ [size]) ∧
    (∀ e, qenv.getTableInfo t1 c1 s1 = .error e →
      quickCompareTables qenv t1 t2 c1 s1 c2 s2 = .err e ∧
      (quickCompareTables qenv t1 t2 c1 s1 c2 s2).success = false) ∧
    (∀ i1 e, qenv.getTableInfo t1 c1 s1 = .ok i1 →
      qenv.getTableInfo t2 c2 s2 = .error e →
      quickCompareTables qenv t1 t2 c1 s1 c2 s2 = .err e ∧
      (quickCompareTables qenv t1 t2 c1 s1 c2 s2).success = false) := by
  refine ⟨?_, ?_, ?_, ?_, ?_, ?_, ?_, ?_⟩
  · intro e hg1
    have heq : (compareTables env t1 t2 c1 s1 c2 s2 d fs).1 = .err e := by
      simp [compareTables, hg1]
    exact ⟨heq, by rw [heq]; rfl⟩
  · intro p1 e hg1 hg2
    have heq : (compareTables env t1 t2 c1 s1 c2 s2 d fs).1 = .err e := by
      simp [compareTables, hg1, hg2]
    exact ⟨heq, by rw [heq]; rfl⟩
  · intro p1 p2 pre size rest hg1 hg2 hlad hpre hh1
    obtain ⟨fs2, hskip⟩ := smartDiffGo_skip_prefix env p1 p2
      (min d (MAX_DIFF_OUTPUT_LINES : Int)) pre (size :: rest) fs [] hpre
    have hrunFull : smartDiffWithSampling env p1 p2
        (min d (MAX_DIFF_OUTPUT_LINES : Int)) fs =
        (.error (.exception ("Failed to create sample file: " ++
          env.headErr p1 size)), fs2, ([] ++ pre) ++ [size]) := by
      unfold smartDiffWithSampling
      rw [hlad, hskip, smartDiffGo_create1_fails env p1 p2 _ size rest fs2
        ([] ++ pre) hh1]
    have h := compareTables_of_diff_error env t1 t2 c1 s1 c2 s2 d fs p1 p2 _
      hg1 hg2 (by rw [hrunFull])
    refine ⟨h.1, ?_⟩
    rw [h.2, hrunFull]
    simp
  · intro p1 p2 pre size rest hg1 hg2 hlad hpre hh1 hh2
    obtain ⟨fs2, hskip⟩ := smartDiffGo_skip_prefix env p1 p2
      (min d (MAX_DIFF_OUTPUT_LINES : Int)) pre (size :: rest) fs [] hpre
    have hrunFull : smartDiffWithSampling env p1 p2
        (min d (MAX_DIFF_OUTPUT_LINES : Int)) fs =
        (.error (.exception ("Failed to create sample file: " ++
          env.headErr p2 size)),
         sampleFilePath p1 size "_1" :: fs2, ([] ++ pre) ++ [size]) := by
      unfold smartDiffWithSampling
      rw [hlad, hskip, smartDiffGo_create2_fails env p1 p2 _ size rest fs2
        ([] ++ pre) hh1 hh2]
    have h := compareTables_of_diff_error env t1 t2 c1 s1 c2 s2 d fs p1 p2 _
      hg1 hg2 (by rw [hrunFull])
    refine ⟨h.1, ?_⟩
    rw [h.2, hrunFull]
    simp
  · intro p1 p2 pre size rest hg1 hg2 hlad hpre hh1 hh2 hto
    obtain ⟨fs2, hskip⟩ := smartDiffGo_skip_prefix env p1 p2
      (min d (MAX_DIFF_OUTPUT_LINES : Int)) pre (size :: rest) fs [] hpre
    have hrunFull : smartDiffWithSampling env p1 p2
        (min d (MAX_DIFF_OUTPUT_LINES : Int)) fs =
        (.error .timeoutExpired,
         cleanupSampleFiles
           (sampleFilePath p2 size "_2" :: sampleFilePath p1 size "_1" :: fs2)
           [sampleFilePath p1 size "_1", sampleFilePath p2 size "_2"],
         ([] ++ pre) ++ [size]) := by
      unfold smartDiffWithSampling
      rw [hlad, hskip, smartDiffGo_timeout env p1 p2 _ size rest fs2
        ([] ++ pre) hh1 hh2 hto]
    have h := compareTables_of_diff_error env t1 t2 c1 s1 c2 s2 d fs p1 p2 _
      hg1 hg2 (by rw [hrunFull])
    have hmsg : pyErrMessage .timeoutExpired =
        "Diff command timed out after 5 minutes" := by decide
    refine ⟨by rw [h.1, hmsg], ?_⟩
    rw [h.2, hrunFull]
    simp
  · intro p1 p2 pre size rest hg1 hg2 hlad hpre hh1 hh2 hto hb0 hb1
    obtain ⟨fs2, hskip⟩ := smartDiffGo_skip_prefix env p1 p2
      (min d (MAX_DIFF_OUTPUT_LINES : Int)) pre (size :: rest) fs [] hpre
    have hrunFull : smartDiffWithSampling env p1 p2
        (min d (MAX_DIFF_OUTPUT_LINES : Int)) fs =
        (.error (.calledProcessError
          (rungResult env p1 p2 size
            (min d (MAX_DIFF_OUTPUT_LINES : Int))).returncode
          (if (rungResult env p1 p2 size
              (min d (MAX_DIFF_OUTPUT_LINES : Int))).stderr = ""
            then "Unknown diff error"
            else (rungResult env p1 p2 size
              (min d (MAX_DIFF_OUTPUT_LINES : Int))).stderr)),
         cleanupSampleFiles
           (sampleFilePath p2 size "_2" :: sampleFilePath p1 size "_1" :: fs2)
           [sampleFilePath p1 size "_1", sampleFilePath p2 size "_2"],
         ([] ++ pre) ++ [size]) := by
      unfold smartDiffWithSampling
      rw [hlad, hskip, smartDiffGo_bad_code_single env p1 p2 _ size rest fs2
        ([] ++ pre) hh1 hh2 hto hb0 hb1]
    have h := compareTables_of_diff_error env t1 t2 c1 s1 c2 s2 d fs p1 p2 _
      hg1 hg2 (by rw [hrunFull])
    refine ⟨⟨_, h.1⟩, ?_, ?_⟩
    · intro r
      rw [h.1]
      simp
    · rw [h.2, hrunFull]
      simp
  · intro e hq1
    have heq : quickCompareTables qenv t1 t2 c1 s1 c2 s2 = .err e := by
      simp [quickCompareTables, hq1]
    exact ⟨heq, by rw [heq]; rfl⟩
  · intro i1 e hq1 hq2
    have heq : quickCompareTables qenv t1 t2 c1 s1 c2 s2 = .err e := by
      simp [quickCompareTables, hq1, hq2]
    exact ⟨heq, by rw [heq]; rfl⟩

/-- Witness for C4, exercising every failure mode on concrete
environments: collaborator failure on table 1 and on table 2, extraction
failure on the first file at the first rung and on the second file at the
second rung (size 25, after an identical rung 5), a comparator timeout at
the second rung, a comparator exit status 2 at the second rung, and
metadata-collaborator failure on either summary of
`quick_compare_tables`. -/
theorem compare_tables_structured_errors_witness :
    (compareTables envServiceErr "t1" "t2" none none none none 10 []).1 =
      .err "Table not found" ∧
    (compareTables envServiceErr2 "t1" "t2" none none none none 10 []).1 =
      .err "second table missing" ∧
    (compareTables envHeadFail1 "t1" "t2" none none none none 10 []).1 =
      .err ("Error running diff: Failed to create sample file: " ++
        envHeadFail1.headErr pathA 5) ∧
    ((compareTables envHeadFailLater "t1" "t2" none none none none 10 []).1 =
      .err ("Error running diff: Failed to create sample file: " ++
        envHeadFailLater.headErr pathB 25) ∧
      (compareTables envHeadFailLater "t1" "t2" none none none none 10
        []).2.2 = [5, 25]) ∧
    ((compareTables envTimeoutLater "t1" "t2" none none none none 10 []).1 =
      .err "Diff command timed out after 5 minutes" ∧
      (compareTables envTimeoutLater "t1" "t2" none none none none 10
        []).2.2 = [5, 25]) ∧
    (∃ msg, (compareTables envBadExit "t1" "t2" none none none none 10 []).1 =
      .err msg) ∧
    (∀ r, (compareTables envBadExit "t1" "t2" none none none none 10 []).1 ≠
      .ok r) ∧
    (compareTables envBadExit "t1" "t2" none none none none 10 []).2.2 =
      [5, 25] ∧
    quickCompareTables quickEnvErr "table1" "table2" none none none none =
      .err "metadata unavailable" ∧
    quickCompareTables quickEnvErr2 "table1" "table2" none none none none =
      .err "second metadata missing" := by
  have hbad := (compare_tables_structured_errors envBadExit quickEnvA "t1" "t2"
      none none none none 10 []).2.2.2.2.2.1 pathA pathB [5] 25 [100, 500]
      rfl rfl rfl
      (by
        intro sz hsz
        have hsz5 : sz = 5 := by simpa using hsz
        subst hsz5
        exact ⟨rfl, rfl, rfl, by decide⟩)
      rfl rfl rfl (by decide) (by decide)
  have hlater := (compare_tables_structured_errors envHeadFailLater quickEnvA
      "t1" "t2" none none none none 10 []).2.2.2.1 pathA pathB [5] 25 [100, 500]
      rfl rfl rfl
      (by
        intro sz hsz
        have hsz5 : sz = 5 := by simpa using hsz
        subst hsz5
        exact ⟨by decide, by decide, rfl, by decide⟩)
      (by decide) (by decide)
  have htime := (compare_tables_structured_errors envTimeoutLater quickEnvA
      "t1" "t2" none none none none 10 []).2.2.2.2.1 pathA pathB [5] 25
      [100, 500] rfl rfl rfl
      (by
        intro sz hsz
        have hsz5 : sz = 5 := by simpa using hsz
        subst hsz5
        exact ⟨rfl, rfl, by decide, by decide⟩)
      rfl rfl (by decide)
  refine ⟨
    ((compare_tables_structured_errors envServiceErr quickEnvA "t1" "t2"
      none none none none 10 []).1 "Table not found" rfl).1,
    ((compare_tables_structured_errors envServiceErr2 quickEnvA "t1" "t2"
      none none none none 10 []).2.1 pathA "second table missing" rfl rfl).1,
    ((compare_tables_structured_errors envHeadFail1 quickEnvA "t1" "t2"
      none none none none 10 []).2.2.1 pathA pathB [] 5 [25, 100, 500]
      rfl rfl rfl (fun sz hsz => absurd hsz (List.not_mem_nil sz))
      (by decide)).1,
    hlater,
    htime,
    hbad.1, hbad.2.1, hbad.2.2,
    ((compare_tables_structured_errors envSame quickEnvErr "table1" "table2"
      none none none none 10 []).2.2.2.2.2.2.1 "metadata unavailable" rfl).1,
    ((compare_tables_structured_errors envSame quickEnvErr2 "table1" "table2"
      none none none none 10 []).2.2.2.2.2.2.2 qinfo1 "second metadata missing"
      rfl rfl).1⟩

/-! ## Claim C10 -/

theorem smartDiffGo_oracle_congr (env envAlt : Env) (f1 f2 : CsvPath)
    (ctx : Int)
    (hc : env.contents = envAlt.contents)
    (hh : env.headFails = envAlt.headFails)
    (he : env.headErr = envAlt.headErr)
    (hrun : ∀ (a b : String) (lines1 lines2 : List String),
      env.runDiff ["diff", UNIFIED_DIFF_FORMAT ++ toString ctx, a, b]
          lines1 lines2 =
        envAlt.runDiff ["diff", UNIFIED_DIFF_FORMAT ++ toString ctx, a, b]
          lines1 lines2) :
    ∀ (ladder : List Nat) (fs : FS) (log : List Nat),
      smartDiffGo env f1 f2 ctx ladder fs log =
        smartDiffGo envAlt f1 f2 ctx ladder fs log := by
  intro ladder
  induction ladder with
  | nil => intro fs log; rfl
  | cons size rest ih =>
    intro fs log
    simp only [smartDiffGo, createSampleFile, buildDiffCommand, hc, hh, he,
      hrun, ih]

/-- C10 (confirmed): the unified-context parameter of every external
`diff` invocation is exactly `min(diff_lines, 10)`: two environments
whose `diff` oracles agree on all commands carrying the flag
`-u{min(diff_lines, 10)}` (and share `head` and file contents) produce
identical `_run_diff_command` runs, whatever their oracles do at any
other flag; and the cap is an upper bound only — for any `diff_lines`
value of at most 10, including zero and negative values,
`min(diff_lines, 10) = diff_lines` is passed through unchanged. -/
theorem diff_context_capped_at_ten (env envAlt : Env) (f1 f2 : CsvPath)
    (d : Int) (fs : FS)
    (hc : env.contents = envAlt.contents)
    (hh : env.headFails = envAlt.headFails)
    (he : env.headErr = envAlt.headErr)
    (hrun : ∀ (a b : String) (lines1 lines2 : List String),
      env.runDiff ["diff",
          UNIFIED_DIFF_FORMAT ++ toString (min d (MAX_DIFF_OUTPUT_LINES : Int)),
          a, b] lines1 lines2 =
        envAlt.runDiff ["diff",
          UNIFIED_DIFF_FORMAT ++ toString (min d (MAX_DIFF_OUTPUT_LINES : Int)),
          a, b] lines1 lines2) :
    runDiffCommand env f1 f2 d fs = runDiffCommand envAlt f1 f2 d fs ∧
    (d ≤ (MAX_DIFF_OUTPUT_LINES : Int) →
      min d (MAX_DIFF_OUTPUT_LINES : Int) = d) := by
  constructor
  · unfold runDiffCommand smartDiffWithSampling
    rw [smartDiffGo_oracle_congr env envAlt f1 f2
      (min d (MAX_DIFF_OUTPUT_LINES : Int)) hc hh he hrun
      INCREMENTAL_SAMPLE_SIZES fs []]
  · intro hle
    exact min_eq_left hle

/-- Witness for C10 at `diff_lines = -3`: `envSameAlt`'s oracle misbehaves
on every flag other than `-u-3`, yet the run equals `envSame`'s — so only
`-u-3` commands were consulted — and the negative value is passed through
uncapped. -/
theorem diff_context_capped_at_ten_witness :
    runDiffCommand envSame pathA pathB (-3) [] =
      runDiffCommand envSameAlt pathA pathB (-3) [] ∧
    min (-3 : Int) (MAX_DIFF_OUTPUT_LINES : Int) = -3 :=
  ⟨(diff_context_capped_at_ten envSame envSameAlt pathA pathB (-3) []
      rfl rfl rfl (fun a b lines1 lines2 => by
        show realRunDiff lines1 lines2 =
          envSameAlt.runDiff ["diff",
            UNIFIED_DIFF_FORMAT ++ toString (min (-3 : Int)
              (MAX_DIFF_OUTPUT_LINES : Int)), a, b] lines1 lines2
        simp [envSameAlt, mkTestEnv]
        exact (if_pos (by decide)).symm)).1,
    (diff_context_capped_at_ten envSame envSameAlt pathA pathB (-3) []
      rfl rfl rfl (fun a b lines1 lines2 => by
        show realRunDiff lines1 lines2 =
          envSameAlt.runDiff ["diff",
            UNIFIED_DIFF_FORMAT ++ toString (min (-3 : Int)
              (MAX_DIFF_OUTPUT_LINES : Int)), a, b] lines1 lines2
        simp [envSameAlt, mkTestEnv]
        exact (if_pos (by decide)).symm)).2 (by decide)⟩
